import Mathlib

/-!
# Verification of the price-tracker resolution pipeline

Shallow embedding of `src/tracker.py` (a price-scraping bot): the price
normalizer `clean_price` (lines 59-70), the structured-data extractor
`get_smart_price` (72-95), the resolution orchestrator `get_price` (97-169,
modelled after a successful fetch, i.e. the pure computation on the parsed
page), and the grid construction of `main` (179-204).

A fetched page (BeautifulSoup document) is modelled as a `Soup`: the parsed
`ld+json` script blocks, the meta tags, the element list in document order,
the full visible text (`soup.get_text()`), and the page title.  Python's
`None` is modelled with `Option`; Python string truthiness with `truthy`.
Python float parsing of a digits-and-dots string is modelled exactly over `ℚ`
(`float(s)` succeeds on such a string iff it has at most one dot and at least
one digit).
-/

set_option autoImplicit false

namespace PriceTracker

/-- `needle` occurs as a contiguous sublist of `hay`. -/
def containsList (hay needle : List Char) : Bool :=
  match hay with
  | [] => needle.isEmpty
  | _ :: rest => needle.isPrefixOf hay || containsList rest needle

/-- Python's `needle in hay` substring test on strings. -/
def containsStr (hay needle : String) : Bool :=
  containsList hay.toList needle.toList

/-- Python truthiness of an optional string (`None` and `""` are falsy),
as used by `if not price_text` in `get_price`. -/
def truthy : Option String → Bool
  | none => false
  | some s => !(s == "")

/-! ## Price normalizer: `clean_price` (tracker.py lines 59-70) -/

/-- The characters kept by `clean_price`'s filter:
`c.isdigit() or c == '.'` (line 63; digits of interest are ASCII). -/
def isKept (c : Char) : Bool := c.isDigit || c == '.'

/-- `"".join([c for c in str(text) if c.isdigit() or c == '.'])` (line 63). -/
def stripped (t : String) : List Char := t.toList.filter isKept

/-- Value of a run of decimal digits, most significant first. -/
def digitsVal (l : List Char) : ℕ :=
  l.foldl (fun a c => 10 * a + (c.toNat - '0'.toNat)) 0

/-- Python `float(clean)` on a string made only of digits and dots
(line 66): succeeds iff there is at most one dot and at least one digit,
and then denotes the digits read as an integer divided by ten to the number
of digits after the dot (the exact decimal value, over `ℚ`; Python's binary
float rounding is immaterial to the claims checked here). -/
def parseVal (l : List Char) : Option ℚ :=
  if l.count '.' ≤ 1 ∧ l.any Char.isDigit = true then
    some (mkRat (digitsVal (l.filter (fun c => c ≠ '.')))
      (10 ^ ((l.dropWhile (fun c => c ≠ '.')).drop 1).length))
  else none

/-- The possible returns of `clean_price`:
`ok v` stands for the formatted success string `f"₹{val:.2f}"` (line 67,
carrying the exact parsed value), `raw t` for the `return text` fallback on
float failure (line 69), and `noVal` for Python `None` (lines 61 and 70). -/
inductive CleanResult
  | ok (val : ℚ)
  | raw (text : String)
  | noVal
  deriving DecidableEq, Repr

/-- `clean_price(text)` (lines 59-70).  `none` input models Python `None`. -/
def cleanPrice : Option String → CleanResult
  | none => .noVal
  | some t =>
    if t = "" then .noVal
    else if (stripped t).isEmpty then .noVal
    else
      match parseVal (stripped t) with
      | some v => .ok v
      | none => .raw t

/-! ## Structured-data extractor: `get_smart_price` (lines 72-95) -/

/-- An offer object inside a parsed `ld+json` block: `str(offer['price'])`
if the key is present, and likewise `lowPrice` (lines 85-86). -/
structure Offer where
  price : Option String
  lowPrice : Option String
  deriving DecidableEq, Repr

/-- One `<script type="application/ld+json">` block, as `get_smart_price`
sees it after lines 77-84: `failed` covers a missing `script.string`, a JSON
parse error, or any raised error (all swallowed by the bare `except` at 87);
`noOffers` a parsed object without an `offers` field; `withOffers o` a parsed
object whose `offers` (first element if a list) is `o`. -/
inductive LdScript
  | failed
  | noOffers
  | withOffers (o : Offer)
  deriving DecidableEq, Repr

/-- The value a single script block contributes (lines 85-86): `price`,
else `lowPrice`, else nothing (the loop continues). -/
def scriptCandidate : LdScript → Option String
  | .failed => none
  | .noOffers => none
  | .withOffers o => o.price.orElse (fun _ => o.lowPrice)

/-- A `<meta>` tag: its `property` and `content` attributes (lines 91-93). -/
structure MetaTag where
  prop : Option String
  content : Option String
  deriving DecidableEq, Repr

/-- An HTML element as the visual-selector branches see it: tag name, class
attribute and text content.  (BeautifulSoup matches the `class` filter
against the element's class attribute; whole-attribute equality suffices for
the properties proved below.) -/
structure Elem where
  tag : String
  cls : String
  text : String
  deriving DecidableEq, Repr

/-- The fetched, parsed document (`BeautifulSoup(driver.page_source, ...)`,
line 112): script blocks, meta tags, elements in document order, the full
visible text `soup.get_text()`, and the page title.  The title is carried
because the spec talks about it; `get_price` itself never reads it. -/
structure Soup where
  ldScripts : List LdScript
  metas : List MetaTag
  elems : List Elem
  fullText : String
  title : String
  deriving DecidableEq, Repr

/-- The meta-tag filter of line 92:
`meta.get("property") in ["og:price:amount", "product:price:amount"]`. -/
def metaMatches (m : MetaTag) : Bool :=
  m.prop == some "og:price:amount" || m.prop == some "product:price:amount"

/-- The script loop of lines 76-88: first block that returns a value. -/
def firstScriptHit : List LdScript → Option String
  | [] => none
  | s :: rest =>
    match scriptCandidate s with
    | some v => some v
    | none => firstScriptHit rest

/-- `get_smart_price(soup)` (lines 72-95).  Note line 93 returns
`meta.get("content")` of the *first* matching meta tag even when that
content attribute is absent (Python `None`). -/
def getSmartPrice (soup : Soup) : Option String :=
  match firstScriptHit soup.ldScripts with
  | some v => some v
  | none =>
    match soup.metas.find? metaMatches with
    | some m => m.content
    | none => none

/-! ## Site-rule extractor: the `if/elif` chain of lines 119-154 -/

/-- `soup.find(tag, {"class": cls})`: first element in document order with
that tag and class. -/
def findElem (soup : Soup) (tag cls : String) : Option Elem :=
  soup.elems.find? (fun e => e.tag == tag && e.cls == cls)

/-- A two-selector fallback chain (`find` first class, else second class,
then `get_text()`), as in the snapdeal/amazon/flipkart/1mg branches. -/
def findText2 (soup : Soup) (tag c1 c2 : String) : Option String :=
  match findElem soup tag c1 with
  | some e => some e.text
  | none =>
    match findElem soup tag c2 with
    | some e => some e.text
    | none => none

/-- A single-selector rule (moglix, blinkit branches). -/
def findText1 (soup : Soup) (tag c1 : String) : Option String :=
  (findElem soup tag c1).map Elem.text

/-- The tag filter of the meesho branch:
`soup.find_all(['h4', 'h5', 'span', 'div'])` (line 122). -/
def isHeaderTag (t : String) : Bool :=
  t == "h4" || t == "h5" || t == "span" || t == "div"

/-- The meesho branch (lines 120-126): first h4/h5/span/div element whose
stripped text starts with `'₹'` and has length `< 10`. -/
def meeshoCandidate (soup : Soup) : Option String :=
  match soup.elems.find?
      (fun e => isHeaderTag e.tag &&
        (e.text.trim.startsWith "₹" && decide (e.text.trim.length < 10))) with
  | some e => some e.text.trim
  | none => none

/-- The whole `if/elif` chain of lines 119-154: first URL-substring match
selects the (single) site rule; a selected rule that finds nothing yields
nothing (the chain is `elif`, so no later rule is tried). -/
def siteRulePrice (soup : Soup) (url : String) : Option String :=
  if containsStr url "meesho" then meeshoCandidate soup
  else if containsStr url "snapdeal" then
    findText2 soup "span" "payBlkBig" "pdp-final-price"
  else if containsStr url "amazon" then
    findText2 soup "span" "a-price-whole" "a-offscreen"
  else if containsStr url "flipkart" then
    findText2 soup "div" "Nx9bqj CxhGGd" "_30jeq3"
  else if containsStr url "1mg" then
    findText2 soup "div" "Price__price___3NyX9" "DrugPriceBox__best-price___32JXw"
  else if containsStr url "moglix" then
    findText1 soup "div" "p-dp-price-amount"
  else if containsStr url "blinkit" then
    findText1 soup "div" "ProductVariants__Price-sc-1unev4j-2"
  else none

/-- The URL substrings of the `if/elif` chain, in declaration order. -/
def declaredRules : List String :=
  ["meesho", "snapdeal", "amazon", "flipkart", "1mg", "moglix", "blinkit"]

/-- Which branch of the `if/elif` chain of lines 119-154 fires for a URL
(the selected site rule), by its URL substring. -/
def selectedRule (url : String) : Option String :=
  if containsStr url "meesho" then some "meesho"
  else if containsStr url "snapdeal" then some "snapdeal"
  else if containsStr url "amazon" then some "amazon"
  else if containsStr url "flipkart" then some "flipkart"
  else if containsStr url "1mg" then some "1mg"
  else if containsStr url "moglix" then some "moglix"
  else if containsStr url "blinkit" then some "blinkit"
  else none

/-! ## Generic pattern extractor: `re.compile(r"₹\s?[\d,.]+")` (lines 156-163) -/

/-- The character class `[\d,.]` of the fallback regex. -/
def runClass (c : Char) : Bool := c.isDigit || c == ',' || c == '.'

/-- The regex `₹\s?[\d,.]+` matched (greedily) at the head of `l`:
`'₹'`, then optionally one whitespace character, then a maximal nonempty run
of digits, commas and dots.  (`\s?` is greedy; since no `[\d,.]` character
is whitespace, the only backtracking is dropping the optional whitespace.) -/
def matchAt : List Char → Option (List Char)
  | [] => none
  | c :: rest =>
    if c = '₹' then
      match rest with
      | [] => none
      | d :: rest2 =>
        if d.isWhitespace then
          if (rest2.takeWhile runClass).isEmpty then none
          else some ('₹' :: d :: rest2.takeWhile runClass)
        else
          if ((d :: rest2).takeWhile runClass).isEmpty then none
          else some ('₹' :: (d :: rest2).takeWhile runClass)
    else none

/-- `regex.search(...)`: the match at the leftmost position where the
pattern matches, or nothing. -/
def rupeeSearch : List Char → Option (List Char)
  | [] => none
  | c :: rest =>
    match matchAt (c :: rest) with
    | some m => some m
    | none => rupeeSearch rest

/-- The universal fallback of lines 158-163: `regex.search(soup.get_text())`
and `match.group()` on success. -/
def genericPrice (soup : Soup) : Option String :=
  (rupeeSearch soup.fullText.toList).map (fun l => String.mk l)

/-! ## Resolution orchestrator: `get_price` (lines 97-169)

Modelled after a successful fetch: the `try` body with `driver`/`time`
effects elided (they do not influence the computed value); the `except`
branch (`return "Error"`, line 169) is a fetch-layer failure outside this
pure model. -/

/-- The value `price_text` holds at line 165: the structured-data candidate
if truthy (line 116), else the site-rule candidate if truthy (lines 119-154,
which run only when the previous stage was falsy), else the generic-pattern
candidate (lines 158-163). -/
def chosenCandidate (soup : Soup) (u : String) : Option String :=
  if truthy (getSmartPrice soup) then getSmartPrice soup
  else if truthy (siteRulePrice soup u) then siteRulePrice soup u
  else genericPrice soup

/-- The possible pure return values of `get_price`: `"Not Available"`
(line 100), `"Out of Stock / Error"` (line 165, falsy candidate), and
`res c` for `return clean_price(price_text)` (line 165, truthy candidate;
`c` can be `ok`, `raw` or `noVal`). -/
inductive PriceResult
  | notAvailable
  | outOfStock
  | res (c : CleanResult)
  deriving DecidableEq, Repr

/-- `get_price(driver, url)` (lines 97-169) as a function of the fetched
document.  A `none` url models a non-string cell
(`not isinstance(url, str)`, line 99); the gate is `"http" not in url`
(substring containment, line 99). -/
def getPrice (soup : Soup) (url : Option String) : PriceResult :=
  match url with
  | none => .notAvailable
  | some u =>
    if containsStr u "http" = false then .notAvailable
    else if truthy (chosenCandidate soup u) then .res (cleanPrice (chosenCandidate soup u))
    else .outOfStock

/-! ## `main`'s grid construction (lines 179-204) -/

/-- `str(cell)` on a `dtype=str` pandas cell: an empty spreadsheet cell is
`NaN`, whose `str()` is `"nan"` (lines 188-190). -/
def render : Option String → String
  | some s => s
  | none => "nan"

/-- One cell of the uploaded grid: either a Python string written directly,
or the value returned by `get_price` appended as-is (line 200). -/
inductive GridCell
  | text (s : String)
  | price (p : PriceResult)
  deriving DecidableEq, Repr

/-- Lines 192-202: one retailer cell.  Only a string cell containing
`"http"` invokes the fetch + `get_price`; anything else becomes
`"Not Available"` with no fetch.  `fetch` abstracts the browser collaborator
(`driver.get` + parse) producing the document for a URL. -/
def cellResult (fetch : String → Soup) : Option String → GridCell
  | none => .text "Not Available"
  | some cellStr =>
    if containsStr cellStr "http" then .price (getPrice (fetch cellStr) (some cellStr))
    else .text "Not Available"

/-- Lines 186-204: one output row — `str()` of the first three cells, then
one resolved cell per remaining header column (`range(3, len(headers))`). -/
def processRow (fetch : String → Soup) (headers : List String)
    (row : List (Option String)) : List GridCell :=
  [GridCell.text (render (row.getD 0 none)), GridCell.text (render (row.getD 1 none)),
    GridCell.text (render (row.getD 2 none))] ++
  ((List.range headers.length).drop 3).map (fun i => cellResult fetch (row.getD i none))

/-- Lines 179-204: the full `final_data` grid — the header row, then one
processed row per catalog row. -/
def mainGrid (fetch : String → Soup) (headers : List String)
    (rows : List (List (Option String))) : List (List GridCell) :=
  (headers.map GridCell.text) :: rows.map (processRow fetch headers)

/-! ## Concrete documents used in counterexamples and witnesses -/

/-- A document with nothing in it. -/
def emptySoup : Soup :=
  { ldScripts := [], metas := [], elems := [], fullText := "", title := "" }

/-- Modelled from the spec: the "known interstitial/robot-check phrases"
(blocking indicators) that §4.5 step 5 says the title is inspected for.
`src/tracker.py` contains no such list, so it is taken from the spec's
words; membership of `"Robot Check"` is all the proofs rely on. -/
def blockingPhrases : List String :=
  ["Robot Check", "Are you a robot", "Access Denied"]

/-- Modelled from the spec: a title contains a blocking indicator. -/
def titleBlocked (title : String) : Bool :=
  blockingPhrases.any (fun p => containsStr title p)

/-- A blocked interstitial page: robot-check title, no price anywhere. -/
def blockedSoup : Soup :=
  { ldScripts := [], metas := [], elems := [],
    fullText := "Sorry, we just need to make sure you are not a robot.",
    title := "Robot Check" }

/-- A document whose structured data carries the unnormalizable price
`"abc"` while the visible text shows `₹ 500`. -/
def badSmartSoup : Soup :=
  { ldScripts := [LdScript.withOffers { price := some "abc", lowPrice := none }],
    metas := [], elems := [], fullText := "Price today: ₹ 500", title := "" }

/-- Visible text whose only currency pattern is `₹.,` (dots and commas,
no digit): `clean_price` keeps `"."` and `float(".")` fails. -/
def rawOutSoup : Soup :=
  { ldScripts := [], metas := [], elems := [], fullText := "deal ₹., only", title := "" }

/-- Visible text whose only currency pattern is `₹,,`: stripping leaves
nothing and `clean_price` returns Python `None`. -/
def pyNoneSoup : Soup :=
  { ldScripts := [], metas := [], elems := [], fullText := "deal ₹,, only", title := "" }

/-- Visible text containing a two-dot run after the symbol. -/
def twoDotSoup : Soup :=
  { ldScripts := [], metas := [], elems := [], fullText := "offer ₹1.2.3 today", title := "" }

/-- A document with a structured-data price of 500 and an amazon site-rule
price of 600. -/
def soup500 : Soup :=
  { ldScripts := [LdScript.withOffers { price := some "500", lowPrice := none }],
    metas := [],
    elems := [{ tag := "span", cls := "a-price-whole", text := "600" }],
    fullText := "structured 500, visual 600", title := "" }

/-- A document for the generic-extractor witness. -/
def soupG : Soup :=
  { ldScripts := [], metas := [], elems := [], fullText := "pay ₹ 89.50 now", title := "" }

/-- The constant fetch collaborator used in grid witnesses. -/
def fetch0 : String → Soup := fun _ => emptySoup

/-- A four-column catalog header (three prefix columns, one retailer). -/
def headers4 : List String := ["Brand", "Product", "Size", "Amazon Link"]

/-- A one-product catalog whose retailer cell is empty. -/
def row0 : List (Option String) := [some "Acme", some "Widget", some "1kg", none]

/-- The catalog rows holding just `row0`. -/
def rows1 : List (List (Option String)) := [row0]

/-! ## Claim C3: the normalizer -/

/-- Claim C3 counterexample: on an input whose stripped form fails to parse
as a decimal (two decimal points), `clean_price` returns the *raw input*
(`return text`, line 69), not a parse failure — refuting "returns
Failed(ParseError) — never the raw input — ... when the stripped string
fails to parse as a decimal". -/
theorem clean_price_raw_cex : cleanPrice (some "1.2.3") = .raw "1.2.3" := by decide

/-- Claim C3 (amended): `clean_price` strips every character that is not a
digit or a dot; it returns `None` when the input is empty/`None` or when
nothing remains after stripping; it returns the parsed decimal when the
stripped string parses (at most one dot, at least one digit); and on parse
failure it returns the raw input text unchanged.  `normalize("₹1,299.00") =
Ok(1299.00)` holds. -/
theorem clean_price_spec (t : String) :
    cleanPrice none = .noVal ∧
    cleanPrice (some "") = .noVal ∧
    ((stripped t).isEmpty = true → cleanPrice (some t) = .noVal) ∧
    (∀ q : ℚ, parseVal (stripped t) = some q → cleanPrice (some t) = .ok q) ∧
    ((stripped t).isEmpty = false → parseVal (stripped t) = none →
      cleanPrice (some t) = .raw t) ∧
    (∀ c ∈ stripped t, isKept c = true) ∧
    (∀ q : ℚ, parseVal (stripped t) = some q →
      (stripped t).count '.' ≤ 1 ∧ (stripped t).any Char.isDigit = true) ∧
    cleanPrice (some "₹1,299.00") = .ok 1299 := by
  refine ⟨rfl, by decide, ?_, ?_, ?_, ?_, ?_, by decide⟩
  · intro h
    by_cases ht : t = ""
    · simp [cleanPrice, ht]
    · simp [cleanPrice, ht, h]
  · intro q hq
    have hne : stripped t ≠ [] := by
      intro h0
      rw [h0, show parseVal [] = none from by decide] at hq
      cases hq
    have ht : t ≠ "" := by
      intro h1
      apply hne
      rw [h1]
      rfl
    have hie : (stripped t).isEmpty = false := by
      cases h0 : stripped t with
      | nil => exact absurd h0 hne
      | cons a l => rfl
    simp [cleanPrice, ht, hie, hq]
  · intro h1 h2
    have ht : t ≠ "" := by
      intro h3
      rw [h3, show (stripped "").isEmpty = true from by decide] at h1
      cases h1
    simp [cleanPrice, ht, h1, h2]
  · intro c hc
    exact List.of_mem_filter hc
  · intro q hq
    by_cases hcond : (stripped t).count '.' ≤ 1 ∧ (stripped t).any Char.isDigit = true
    · exact hcond
    · rw [parseVal, if_neg hcond] at hq
      cases hq

/-- Witness for `clean_price_spec` at concrete inputs. -/
theorem clean_price_spec_witness :
    cleanPrice (some "abc") = .noVal ∧ cleanPrice (some "₹1,299.00") = .ok 1299 :=
  ⟨(clean_price_spec "abc").2.2.1 (by decide),
    (clean_price_spec "").2.2.2.2.2.2.2⟩

/-! ## Claim C5: structured-data precedence -/

/-- Claim C5 (confirmed): whenever the structured-data extractor yields a
candidate that the normalizer accepts, `get_price` returns that price,
whatever the site rules or the page text would have produced — the
structured-data stage runs first and a truthy candidate short-circuits the
rest (lines 116-119). -/
theorem structured_data_precedence (s : Soup) (u p : String) (q : ℚ)
    (hu : containsStr u "http" = true)
    (hp : getSmartPrice s = some p)
    (hq : cleanPrice (some p) = .ok q) :
    getPrice s (some u) = .res (.ok q) := by
  have hpne : p ≠ "" := by
    intro h
    subst h
    rw [show cleanPrice (some "") = .noVal from by decide] at hq
    cases hq
  have ht : truthy (some p) = true := by
    simp [truthy, hpne]
  simp [getPrice, chosenCandidate, hu, hp, ht, hq]

/-- Witness for `structured_data_precedence`: a document carrying a valid
structured-data price of 500 *and* a site-rule-matchable visual price of 600
(the amazon selector `span.a-price-whole`) resolves to 500. -/
theorem structured_data_precedence_witness :
    getSmartPrice soup500 = some "500" ∧
    siteRulePrice soup500 "https://www.amazon.in/dp/item" = some "600" ∧
    cleanPrice (some "600") = .ok 600 ∧
    getPrice soup500 (some "https://www.amazon.in/dp/item") = .res (.ok 500) :=
  ⟨by decide, by decide, by decide,
    structured_data_precedence soup500 "https://www.amazon.in/dp/item" "500" 500
      (by decide) (by decide) (by decide)⟩

/-! ## Claim C2: no continue-on-normalize-failure -/

/-- Claim C2 counterexample: structured data yields the candidate `"abc"`,
which the normalizer rejects; the visible text holds a normalizable `₹ 500`
that the generic extractor would find — yet resolution returns the rejected
candidate's normalize result (Python `None`), not `Ok(500)`: a rejected
candidate is *not* discarded and later strategies are *not* tried. -/
theorem unnormalizable_candidate_cex :
    getSmartPrice badSmartSoup = some "abc" ∧
    genericPrice badSmartSoup = some "₹ 500" ∧
    cleanPrice (some "₹ 500") = .ok 500 ∧
    getPrice badSmartSoup (some "http://shop.example/item") = .res .noVal ∧
    getPrice badSmartSoup (some "http://shop.example/item") ≠ .res (.ok 500) :=
  ⟨by decide, by decide, by decide, by decide, by decide⟩

/-- Claim C2 (amended): `get_price` normalizes exactly once, on the first
*truthy* (non-`None`, nonempty) candidate in strategy order, and surfaces
`clean_price` of that candidate as the result even when normalization fails;
a later strategy runs only when every earlier strategy produced a falsy
candidate (lines 116-165). -/
theorem first_truthy_candidate_surfaced (s : Soup) (u : String)
    (hu : containsStr u "http" = true) :
    (truthy (getSmartPrice s) = true →
      getPrice s (some u) = .res (cleanPrice (getSmartPrice s))) ∧
    (truthy (getSmartPrice s) = false → truthy (siteRulePrice s u) = true →
      getPrice s (some u) = .res (cleanPrice (siteRulePrice s u))) ∧
    (truthy (getSmartPrice s) = false → truthy (siteRulePrice s u) = false →
      truthy (genericPrice s) = true →
      getPrice s (some u) = .res (cleanPrice (genericPrice s))) := by
  refine ⟨?_, ?_, ?_⟩
  · intro h1
    simp [getPrice, chosenCandidate, hu, h1]
  · intro h1 h2
    simp [getPrice, chosenCandidate, hu, h1, h2]
  · intro h1 h2 h3
    simp [getPrice, chosenCandidate, hu, h1, h2, h3]

/-- Witness for `first_truthy_candidate_surfaced`. -/
theorem first_truthy_candidate_surfaced_witness :
    getPrice badSmartSoup (some "http://shop.example/item") =
      .res (cleanPrice (getSmartPrice badSmartSoup)) :=
  (first_truthy_candidate_surfaced badSmartSoup "http://shop.example/item"
    (by decide)).1 (by decide)

/-! ## Claim C1: no Blocked classification -/

/-- Claim C1 counterexample: a document whose title contains the robot-check
phrase `"Robot Check"` and whose body has no extractable price resolves to
`"Out of Stock / Error"` — so `get_price` returns the out-of-stock result
*even when a blocking phrase is present*, refuting "returns
Failed(OutOfStock) only when no blocking phrase is present". -/
theorem blocked_title_cex :
    titleBlocked blockedSoup.title = true ∧
    getPrice blockedSoup (some "https://www.amazon.in/dp/B0TEST") = .outOfStock :=
  ⟨by decide, by decide⟩

/-- Claim C1 (amended): when no strategy yields a truthy candidate,
`get_price` returns `"Out of Stock / Error"` unconditionally — the document
title is never inspected (the conclusion holds for *every* title `t`,
blocking phrase or not) and no Blocked classification exists in the code
(line 165). -/
theorem no_candidate_outOfStock (s : Soup) (u t : String)
    (hu : containsStr u "http" = true)
    (h1 : truthy (getSmartPrice s) = false)
    (h2 : truthy (siteRulePrice s u) = false)
    (h3 : truthy (genericPrice s) = false) :
    getPrice { s with title := t } (some u) = .outOfStock := by
  have e1 : getSmartPrice { s with title := t } = getSmartPrice s := rfl
  have e2 : siteRulePrice { s with title := t } u = siteRulePrice s u := rfl
  have e3 : genericPrice { s with title := t } = genericPrice s := rfl
  simp [getPrice, chosenCandidate, hu, e1, e2, e3, h1, h2, h3]

/-- Witness for `no_candidate_outOfStock` at a robot-check title. -/
theorem no_candidate_outOfStock_witness :
    titleBlocked "Robot Check" = true ∧
    getPrice { emptySoup with title := "Robot Check" } (some "http://t.example") =
      .outOfStock :=
  ⟨by decide, no_candidate_outOfStock emptySoup "http://t.example" "Robot Check"
    (by decide) (by decide) (by decide) (by decide)⟩

/-! ## Claim C7: the URL gate -/

/-- Claim C7 counterexample: `"xhttp-example"` does not begin with a network
scheme (`http`/`https` as a head of the string), yet `get_price` proceeds to
extraction on it (result `"Out of Stock / Error"`, not `"Not Available"`) —
line 99 tests `"http" in url`, substring containment, not a prefix. -/
theorem http_substring_cex :
    ("http".toList.isPrefixOf "xhttp-example".toList = false) ∧
    ("https".toList.isPrefixOf "xhttp-example".toList = false) ∧
    getPrice emptySoup (some "xhttp-example") = .outOfStock ∧
    getPrice emptySoup (some "xhttp-example") ≠ .notAvailable :=
  ⟨by decide, by decide, by decide, by decide⟩

/-- Claim C7 (amended): the gate is substring containment of `"http"`.
A non-string cell (`none`) or a URL not containing `"http"` yields
`"Not Available"` immediately — the result does not depend on the document
(no extraction) and, in `main`, the fetch collaborator is never consulted
(`cellResult` is fetch-independent there).  A URL containing `"http"`
anywhere, prefix or not, always proceeds past the gate. -/
theorem url_gate_spec (s s2 : Soup) (u : String) (fetch fetch2 : String → Soup) :
    getPrice s none = .notAvailable ∧
    (containsStr u "http" = false →
      getPrice s (some u) = .notAvailable ∧ getPrice s (some u) = getPrice s2 (some u)) ∧
    (containsStr u "http" = true → getPrice s (some u) ≠ .notAvailable) ∧
    (containsStr u "http" = false → cellResult fetch (some u) = cellResult fetch2 (some u)) ∧
    cellResult fetch none = .text "Not Available" := by
  refine ⟨rfl, ?_, ?_, ?_, rfl⟩
  · intro h
    exact ⟨by simp [getPrice, h], by simp [getPrice, h]⟩
  · intro h
    have he : getPrice s (some u) =
        if truthy (chosenCandidate s u) then PriceResult.res (cleanPrice (chosenCandidate s u))
        else PriceResult.outOfStock := by
      simp [getPrice, h]
    rw [he]
    split <;> simp
  · intro h
    simp [cellResult, h]

/-- Witness for `url_gate_spec`. -/
theorem url_gate_spec_witness :
    getPrice emptySoup (some "products.xlsx") = .notAvailable ∧
    getPrice emptySoup (some "xhttp-example") ≠ .notAvailable :=
  ⟨((url_gate_spec emptySoup emptySoup "products.xlsx" fetch0 fetch0).2.1 (by decide)).1,
    (url_gate_spec emptySoup emptySoup "xhttp-example" fetch0 fetch0).2.2.1 (by decide)⟩

/-! ## Claim C4: the output forms of `get_price` -/

/-- The candidate `get_price` ends up normalizing comes from one of the
three strategies. -/
lemma chosenCandidate_cases (s : Soup) (u : String) :
    chosenCandidate s u = getSmartPrice s ∨ chosenCandidate s u = siteRulePrice s u ∨
      chosenCandidate s u = genericPrice s := by
  unfold chosenCandidate
  split_ifs <;> simp

/-- Claim C4 counterexample: resolution can return a raw unnormalized
candidate string (`"₹.,"`, via `clean_price`'s `return text` fallback) and
can return Python `None` (candidate `"₹,,"` strips to nothing) — both
outside the tagged set `{Ok, NotAvailable, OutOfStock, Blocked, ParseError,
NetworkError}`. -/
theorem result_outside_tagged_set_cex :
    getPrice rawOutSoup (some "http://a.example") = .res (.raw "₹.,") ∧
    getPrice pyNoneSoup (some "http://b.example") = .res .noVal :=
  ⟨by decide, by decide⟩

/-- Claim C4 (amended): every `get_price` result is `"Not Available"`,
`"Out of Stock / Error"`, or `clean_price` of a nonempty candidate produced
by one of the three strategies — and that last form can be the formatted
price, the raw candidate text, or Python `None`; no other values occur
(the fetch-exception path `"Error"` lies outside this pure model). -/
theorem get_price_output_forms (s : Soup) (u : Option String) :
    getPrice s u = .notAvailable ∨ getPrice s u = .outOfStock ∨
    ∃ c : String, c ≠ "" ∧
      (getSmartPrice s = some c ∨ (∃ u2, u = some u2 ∧ siteRulePrice s u2 = some c) ∨
        genericPrice s = some c) ∧
      getPrice s u = .res (cleanPrice (some c)) := by
  cases u with
  | none => exact Or.inl rfl
  | some u2 =>
    by_cases hu : containsStr u2 "http" = false
    · exact Or.inl (by simp [getPrice, hu])
    · cases hc : chosenCandidate s u2 with
      | none =>
        refine Or.inr (Or.inl ?_)
        simp [getPrice, hu, hc, truthy]
      | some c =>
        by_cases hce : c = ""
        · subst hce
          refine Or.inr (Or.inl ?_)
          simp [getPrice, hu, hc, truthy]
        · refine Or.inr (Or.inr ⟨c, hce, ?_, ?_⟩)
          · rcases chosenCandidate_cases s u2 with h | h | h
            · exact Or.inl (h.symm.trans hc)
            · exact Or.inr (Or.inl ⟨u2, rfl, h.symm.trans hc⟩)
            · exact Or.inr (Or.inr (h.symm.trans hc))
          · have ht : truthy (some c) = true := by
              simp [truthy, hce]
            simp [getPrice, hu, hc, ht]

/-! ## Claim C9: site-rule selection -/

/-- Claim C9 (confirmed): if any declared rule's URL substring matches, the
`if/elif` chain selects the first-declared matching rule: the selected rule
matches and every earlier-declared rule does not.  Selection is a pure
function of the URL, hence deterministic across repeated resolutions. -/
theorem rule_selection_first_match (url r0 : String)
    (hr : r0 ∈ declaredRules) (hm : containsStr url r0 = true) :
    ∃ k, k < declaredRules.length ∧
      selectedRule url = some (declaredRules.getD k "") ∧
      containsStr url (declaredRules.getD k "") = true ∧
      ∀ j, j < k → containsStr url (declaredRules.getD j "") = false := by
  by_cases c0 : containsStr url "meesho" = true
  · refine ⟨0, by decide, ?_, ?_, ?_⟩
    · simp [selectedRule, c0, declaredRules]
    · simpa [declaredRules] using c0
    · intro j hj
      omega
  · by_cases c1 : containsStr url "snapdeal" = true
    · refine ⟨1, by decide, ?_, ?_, ?_⟩
      · simp [selectedRule, c0, c1, declaredRules]
      · simpa [declaredRules] using c1
      · intro j hj
        interval_cases j
        · simpa [declaredRules] using c0
    · by_cases c2 : containsStr url "amazon" = true
      · refine ⟨2, by decide, ?_, ?_, ?_⟩
        · simp [selectedRule, c0, c1, c2, declaredRules]
        · simpa [declaredRules] using c2
        · intro j hj
          interval_cases j
          · simpa [declaredRules] using c0
          · simpa [declaredRules] using c1
      · by_cases c3 : containsStr url "flipkart" = true
        · refine ⟨3, by decide, ?_, ?_, ?_⟩
          · simp [selectedRule, c0, c1, c2, c3, declaredRules]
          · simpa [declaredRules] using c3
          · intro j hj
            interval_cases j
            · simpa [declaredRules] using c0
            · simpa [declaredRules] using c1
            · simpa [declaredRules] using c2
        · by_cases c4 : containsStr url "1mg" = true
          · refine ⟨4, by decide, ?_, ?_, ?_⟩
            · simp [selectedRule, c0, c1, c2, c3, c4, declaredRules]
            · simpa [declaredRules] using c4
            · intro j hj
              interval_cases j
              · simpa [declaredRules] using c0
              · simpa [declaredRules] using c1
              · simpa [declaredRules] using c2
              · simpa [declaredRules] using c3
          · by_cases c5 : containsStr url "moglix" = true
            · refine ⟨5, by decide, ?_, ?_, ?_⟩
              · simp [selectedRule, c0, c1, c2, c3, c4, c5, declaredRules]
              · simpa [declaredRules] using c5
              · intro j hj
                interval_cases j
                · simpa [declaredRules] using c0
                · simpa [declaredRules] using c1
                · simpa [declaredRules] using c2
                · simpa [declaredRules] using c3
                · simpa [declaredRules] using c4
            · by_cases c6 : containsStr url "blinkit" = true
              · refine ⟨6, by decide, ?_, ?_, ?_⟩
                · simp [selectedRule, c0, c1, c2, c3, c4, c5, c6, declaredRules]
                · simpa [declaredRules] using c6
                · intro j hj
                  interval_cases j
                  · simpa [declaredRules] using c0
                  · simpa [declaredRules] using c1
                  · simpa [declaredRules] using c2
                  · simpa [declaredRules] using c3
                  · simpa [declaredRules] using c4
                  · simpa [declaredRules] using c5
              · exfalso
                simp [declaredRules] at hr
                rcases hr with rfl | rfl | rfl | rfl | rfl | rfl | rfl <;> simp_all

/-- Witness for `rule_selection_first_match`: a URL matching both the
meesho and the amazon rule selects the first-declared one (meesho). -/
theorem rule_selection_first_match_witness :
    ∃ k, k < declaredRules.length ∧
      selectedRule "https://www.meesho.com/amazon-item" = some (declaredRules.getD k "") ∧
      containsStr "https://www.meesho.com/amazon-item" (declaredRules.getD k "") = true ∧
      ∀ j, j < k →
        containsStr "https://www.meesho.com/amazon-item" (declaredRules.getD j "") = false :=
  rule_selection_first_match "https://www.meesho.com/amazon-item" "amazon"
    (by decide) (by decide)

/-! ## Claim C8: the generic pattern extractor -/

/-- `regex.search` finds no match iff the pattern matches at no position. -/
lemma rupeeSearch_none_iff (l : List Char) :
    rupeeSearch l = none ↔ ∀ i, matchAt (List.drop i l) = none := by
  induction l with
  | nil =>
    simp [rupeeSearch, List.drop_nil, matchAt]
  | cons c rest ih =>
    cases hm : matchAt (c :: rest) with
    | some m =>
      simp only [rupeeSearch, hm]
      constructor
      · intro h
        cases h
      · intro h
        have h0 := h 0
        rw [List.drop_zero, hm] at h0
        cases h0
    | none =>
      simp only [rupeeSearch, hm]
      rw [ih]
      constructor
      · intro h i
        cases i with
        | zero =>
          rw [List.drop_zero]
          exact hm
        | succ j =>
          rw [List.drop_succ_cons]
          exact h j
      · intro h j
        have hj := h (j + 1)
        rwa [List.drop_succ_cons] at hj

/-- `regex.search` returns the match at the leftmost matching position. -/
lemma rupeeSearch_some (l m : List Char) (h : rupeeSearch l = some m) :
    ∃ i, matchAt (List.drop i l) = some m ∧
      ∀ j, j < i → matchAt (List.drop j l) = none := by
  induction l with
  | nil =>
    simp [rupeeSearch] at h
  | cons c rest ih =>
    cases hm : matchAt (c :: rest) with
    | some m2 =>
      simp only [rupeeSearch, hm, Option.some.injEq] at h
      subst h
      exact ⟨0, by rwa [List.drop_zero],
        fun j hj => absurd hj (Nat.not_lt_zero j)⟩
    | none =>
      have h2 : rupeeSearch rest = some m := by
        simpa only [rupeeSearch, hm] using h
      obtain ⟨i, h3, h4⟩ := ih h2
      refine ⟨i + 1, ?_, ?_⟩
      · rwa [List.drop_succ_cons]
      · intro j hj
        cases j with
        | zero =>
          rw [List.drop_zero]
          exact hm
        | succ j2 =>
          rw [List.drop_succ_cons]
          exact h4 j2 (by omega)

/-- A successful match of `₹\s?[\d,.]+` is the currency sign, at most one
whitespace character, then a nonempty run of `[\d,.]` characters, and it is
a head of the text matched at. -/
lemma matchAt_shape (l m : List Char) (h : matchAt l = some m) :
    ∃ ws run rest, m = '₹' :: (ws ++ run) ∧ l = m ++ rest ∧
      ws.length ≤ 1 ∧ (∀ w ∈ ws, w.isWhitespace = true) ∧
      run ≠ [] ∧ (∀ x ∈ run, runClass x = true) := by
  cases l with
  | nil => simp [matchAt] at h
  | cons c l1 =>
    by_cases hc : c = '₹'
    · subst hc
      cases l1 with
      | nil => simp [matchAt] at h
      | cons d rest2 =>
        by_cases hd : d.isWhitespace = true
        · by_cases hrun : (rest2.takeWhile runClass).isEmpty = true
          · simp [matchAt, hd, hrun] at h
          · have hstep : matchAt ('₹' :: d :: rest2) =
                some ('₹' :: d :: rest2.takeWhile runClass) := by
              simp [matchAt, hd, hrun]
            have hme : m = '₹' :: d :: rest2.takeWhile runClass :=
              (Option.some.inj (hstep.symm.trans h)).symm
            refine ⟨[d], rest2.takeWhile runClass, rest2.dropWhile runClass,
              ?_, ?_, ?_, ?_, ?_, ?_⟩
            · rw [hme]
              rfl
            · rw [hme, List.cons_append, List.cons_append,
                List.takeWhile_append_dropWhile]
            · simp
            · intro w hw
              simp only [List.mem_singleton] at hw
              subst hw
              exact hd
            · intro h0
              exact hrun (by rw [h0]; rfl)
            · intro x hx
              exact List.mem_takeWhile_imp hx
        · by_cases hrun : ((d :: rest2).takeWhile runClass).isEmpty = true
          · simp [matchAt, hd, hrun] at h
          · have hstep : matchAt ('₹' :: d :: rest2) =
                some ('₹' :: (d :: rest2).takeWhile runClass) := by
              simp [matchAt, hd, hrun]
            have hme : m = '₹' :: (d :: rest2).takeWhile runClass :=
              (Option.some.inj (hstep.symm.trans h)).symm
            refine ⟨[], (d :: rest2).takeWhile runClass,
              (d :: rest2).dropWhile runClass, ?_, ?_, ?_, ?_, ?_, ?_⟩
            · rw [hme]
              rfl
            · rw [hme, List.cons_append, List.takeWhile_append_dropWhile]
            · simp
            · intro w hw
              cases hw
            · intro h0
              exact hrun (by rw [h0]; rfl)
            · intro x hx
              exact List.mem_takeWhile_imp hx
    · simp [matchAt, hc] at h

/-- Claim C8 counterexample: on the text `offer ₹1.2.3 today` the fallback
regex `₹\s?[\d,.]+` matches `₹1.2.3` *in full* — a run with two decimal
points after the symbol is matched whole, refuting "a run ... containing at
most one decimal point; ... a run with two or more decimal points after the
symbol is not matched in full". -/
theorem two_dots_full_match_cex :
    genericPrice twoDotSoup = some "₹1.2.3" ∧
    cleanPrice (genericPrice twoDotSoup) = .raw "₹1.2.3" :=
  ⟨by decide, by decide⟩

/-- Claim C8 (amended): the generic extractor's candidate is the leftmost
substring of the full visible text matching: currency symbol, at most one
whitespace character, then a nonempty run of digits, commas and decimal
points — with *no* bound on the number of decimal points; it returns
nothing iff no position of the text matches. -/
theorem generic_pattern_leftmost (s : Soup) :
    (genericPrice s = none ↔ ∀ i, matchAt (List.drop i s.fullText.toList) = none) ∧
    (∀ m : String, genericPrice s = some m →
      ∃ i, matchAt (List.drop i s.fullText.toList) = some m.toList ∧
        ∀ j, j < i → matchAt (List.drop j s.fullText.toList) = none) ∧
    (∀ l m2 : List Char, matchAt l = some m2 →
      ∃ ws run rest, m2 = '₹' :: (ws ++ run) ∧ l = m2 ++ rest ∧
        ws.length ≤ 1 ∧ (∀ w ∈ ws, w.isWhitespace = true) ∧
        run ≠ [] ∧ (∀ x ∈ run, runClass x = true)) := by
  refine ⟨?_, ?_, fun l m2 h => matchAt_shape l m2 h⟩
  · have h1 : genericPrice s = none ↔ rupeeSearch s.fullText.toList = none := by
      unfold genericPrice
      cases rupeeSearch s.fullText.toList <;> simp
    rw [h1, rupeeSearch_none_iff]
  · intro m hm
    unfold genericPrice at hm
    cases hr : rupeeSearch s.fullText.toList with
    | none =>
      rw [hr] at hm
      cases hm
    | some m3 =>
      rw [hr] at hm
      simp only [Option.map_some', Option.some.injEq] at hm
      subst hm
      rw [show (String.mk m3).toList = m3 from rfl]
      exact rupeeSearch_some _ _ hr

/-- Witness for `generic_pattern_leftmost` on a concrete page text. -/
theorem generic_pattern_leftmost_witness :
    ∃ i, matchAt (List.drop i soupG.fullText.toList) = some "₹ 89.50".toList ∧
      ∀ j, j < i → matchAt (List.drop j soupG.fullText.toList) = none :=
  (generic_pattern_leftmost soupG).2.1 "₹ 89.50" (by decide)

/-! ## Claim C6: output grid shape -/

/-- Claim C6 counterexample: with a 4-column catalog (3 prefix columns, 1
retailer column), every produced row has 4 cells — not
`fixed_prefix_columns + len(retailer_columns) + 1 = 5`: no timestamp column
is appended anywhere in `main`. -/
theorem grid_shape_cex :
    (mainGrid fetch0 headers4 rows1).length = 1 + 1 ∧
    ((mainGrid fetch0 headers4 rows1).getD 1 []).length = 4 ∧
    headers4.length = 3 + 1 ∧
    (4 : ℕ) ≠ 3 + 1 + 1 :=
  ⟨by decide, by decide, by decide, by decide⟩

/-- Claim C6 (amended): the grid has `1 + len(products)` rows, and every
row (header and data alike) has exactly `len(headers) =
fixed_prefix_columns + len(retailer_columns)` cells; no timestamp column
exists. -/
theorem grid_shape (fetch : String → Soup) (headers : List String)
    (rows : List (List (Option String))) (h3 : 3 ≤ headers.length) :
    (mainGrid fetch headers rows).length = 1 + rows.length ∧
    ∀ r ∈ mainGrid fetch headers rows, r.length = headers.length := by
  constructor
  · simp only [mainGrid, List.length_cons, List.length_map]
    omega
  · intro r hr
    simp only [mainGrid, List.mem_cons, List.mem_map] at hr
    rcases hr with rfl | ⟨row, hrow, rfl⟩
    · simp
    · simp only [processRow, List.length_append, List.length_map, List.length_drop,
        List.length_range, List.length_cons, List.length_nil]
      omega

/-- Witness for `grid_shape` on the concrete one-product catalog. -/
theorem grid_shape_witness :
    (mainGrid fetch0 headers4 rows1).length = 1 + 1 ∧
    ((mainGrid fetch0 headers4 rows1).getD 0 []).length = headers4.length := by
  have h := grid_shape fetch0 headers4 rows1 (by decide)
  refine ⟨h.1.trans (by decide), ?_⟩
  exact h.2 _ (by decide :
    (mainGrid fetch0 headers4 rows1).getD 0 [] ∈ mainGrid fetch0 headers4 rows1)

/-! ## Claim C10: the prefix columns and header row pass through -/

/-- Claim C10 (confirmed): the first grid row is the catalog header list
unchanged; each product's output row starts with the string renderings of
its first three input cells, and everything from column 3 on is exactly the
per-retailer resolution output; the three prefix cells do not depend on the
fetch/resolution collaborator at all. -/
theorem row_prefix_preserved (fetch fetch2 : String → Soup) (headers : List String)
    (rows : List (List (Option String))) (row : List (Option String))
    (hrow : row ∈ rows) :
    (mainGrid fetch headers rows).head? = some (headers.map GridCell.text) ∧
    processRow fetch headers row ∈ (mainGrid fetch headers rows).tail ∧
    (processRow fetch headers row).take 3 =
      [GridCell.text (render (row.getD 0 none)), GridCell.text (render (row.getD 1 none)),
        GridCell.text (render (row.getD 2 none))] ∧
    (processRow fetch headers row).drop 3 =
      ((List.range headers.length).drop 3).map (fun k => cellResult fetch (row.getD k none)) ∧
    (processRow fetch2 headers row).take 3 = (processRow fetch headers row).take 3 := by
  refine ⟨rfl, ?_, rfl, rfl, rfl⟩
  simp only [mainGrid, List.tail_cons]
  exact List.mem_map_of_mem _ hrow

/-- Witness for `row_prefix_preserved` on the concrete catalog. -/
theorem row_prefix_preserved_witness :
    (mainGrid fetch0 headers4 rows1).head? = some (headers4.map GridCell.text) ∧
    (processRow fetch0 headers4 row0).take 3 =
      [GridCell.text "Acme", GridCell.text "Widget", GridCell.text "1kg"] := by
  have h := row_prefix_preserved fetch0 fetch0 headers4 rows1 row0 (by decide)
  exact ⟨h.1, h.2.2.1.trans (by decide)⟩

end PriceTracker
